import Mathlib

/-!
# DiVA firmware: display mode switching, button hold counter, text cursor

A shallow embedding of `sw/DiVA-fw/main.c`:

* `terminal_write` (lines 22-38) over the 8-bit cursor globals `x`, `y` and
  the text cell memory at `TERMINAL_BASE`;
* `switch_mode` (lines 42-62) over the framer/scaler control registers;
* the part of `main` that programs the framer before the loop (lines 140-158)
  and the button logic of the loop body (lines 174-189).

Machine integers are natural numbers with the wrap-around written out
(`% 256` for `uint8_t`, `% 65536` for `uint16_t`).  Every control register
write is also appended to a chronological log, so that the order and number of
writes can be stated.
-/

namespace DiVA

/-! ## Control registers -/

/-- The control registers written by `switch_mode` and by the loop of `main`. -/
inductive Csr where
  | framer_width
  | framer_height
  | framer_x_start
  | framer_y_start
  | scaler_enable
  | boson_mode
  deriving DecidableEq, Repr

/-- Hardware state: the value last written to each register, and the log of
all register writes so far, oldest first. -/
structure Hw where
  framer_width : Nat
  framer_height : Nat
  framer_x_start : Nat
  framer_y_start : Nat
  scaler_enable : Nat
  boson_mode : Nat
  log : List (Csr × Nat)
  deriving DecidableEq, Repr

/-- Modelled from the spec: the register accessors of `generated/csr.h` are
not part of the sources; following section 6 (`write_framer_geometry` "sets
display geometry register"), a write stores its argument in the register. -/
def framer_width_write (v : Nat) (hw : Hw) : Hw :=
  { hw with framer_width := v, log := hw.log ++ [(Csr.framer_width, v)] }

/-- Modelled from the spec: accessor of `generated/csr.h`, stores the height. -/
def framer_height_write (v : Nat) (hw : Hw) : Hw :=
  { hw with framer_height := v, log := hw.log ++ [(Csr.framer_height, v)] }

/-- Modelled from the spec: accessor of `generated/csr.h`, stores the x offset. -/
def framer_x_start_write (v : Nat) (hw : Hw) : Hw :=
  { hw with framer_x_start := v, log := hw.log ++ [(Csr.framer_x_start, v)] }

/-- Modelled from the spec: accessor of `generated/csr.h`, stores the y offset. -/
def framer_y_start_write (v : Nat) (hw : Hw) : Hw :=
  { hw with framer_y_start := v, log := hw.log ++ [(Csr.framer_y_start, v)] }

/-- Modelled from the spec: accessor of `generated/csr.h` (`write_scaler_enable`
"sets scaler enable register"). -/
def scaler_enable_write (v : Nat) (hw : Hw) : Hw :=
  { hw with scaler_enable := v, log := hw.log ++ [(Csr.scaler_enable, v)] }

/-- Modelled from the spec: accessor of `generated/csr.h`
(`signal_camera_mode_switch`, the write to the camera mode register). -/
def boson_mode_write (v : Nat) (hw : Hw) : Hw :=
  { hw with boson_mode := v, log := hw.log ++ [(Csr.boson_mode, v)] }

/-- The five framer/scaler registers, in the order width, height, x_start,
y_start, scaler enable. -/
def framer_regs (hw : Hw) : Nat × Nat × Nat × Nat × Nat :=
  (hw.framer_width, hw.framer_height, hw.framer_x_start, hw.framer_y_start,
    hw.scaler_enable)

/-! ## `switch_mode` -/

/-- `void switch_mode(int mode)`, lines 42-62: the statements of each branch in
source order. -/
def switch_mode (mode : Int) (hw : Hw) : Hw :=
  if mode = 0 then
    let hw := framer_x_start_write 213 hw
    let hw := framer_y_start_write 27 hw
    let hw := framer_width_write 800 hw
    let hw := framer_height_write 600 hw
    scaler_enable_write 1 hw
  else
    let hw := framer_width_write 640 hw
    let hw := framer_height_write 512 hw
    let hw := framer_x_start_write (213 + (800 - 640) / 2) hw
    let hw := framer_y_start_write (27 + (600 - 512) / 2) hw
    scaler_enable_write 0 hw

/-- The writes one call of `switch_mode` added to the log. -/
def switch_mode_writes (mode : Int) (hw : Hw) : List (Csr × Nat) :=
  (switch_mode mode hw).log.drop hw.log.length

/-- The registers named in a list of writes. -/
def written (ws : List (Csr × Nat)) : List Csr :=
  ws.map Prod.fst

/-- The four geometry registers. -/
def geometry : List Csr :=
  [Csr.framer_width, Csr.framer_height, Csr.framer_x_start, Csr.framer_y_start]

/-- Hardware with every register zero and nothing written yet. -/
def Hw.reset : Hw :=
  { framer_width := 0, framer_height := 0, framer_x_start := 0, framer_y_start := 0,
    scaler_enable := 0, boson_mode := 0, log := [] }

/-! ## The button logic of `main` -/

/-- The locals of `main` read and written by the loop (`uint8_t scale_mode`,
`uint16_t btn_2_cnt`) together with the hardware. -/
structure State where
  scale_mode : Nat
  btn_2_cnt : Nat
  hw : Hw
  deriving DecidableEq, Repr

/-- Lines 140-159 of `main`: the framer is programmed, `switch_mode(1)` is
called, and the two locals are initialised. -/
def main_init (hw : Hw) : State :=
  let hw := framer_width_write 800 hw
  let hw := framer_height_write 600 hw
  let hw := framer_x_start_write (213 + (800 - 640) / 2) hw
  let hw := framer_y_start_write (27 + (600 - 512) / 2) hw
  let hw := switch_mode 1 hw
  { scale_mode := 1, btn_2_cnt := 0, hw := hw }

/-- Lines 185-188, the body of the second `if` of the loop:
`scale_mode ^= 1; btn_2_cnt = 999; switch_mode(scale_mode);`. -/
def main_toggle (s : State) : State :=
  let scale_mode := (s.scale_mode ^^^ 1) % 256
  { scale_mode := scale_mode, btn_2_cnt := 999,
    hw := switch_mode (Int.ofNat scale_mode) s.hw }

/-- Lines 174-189, one iteration of the loop of `main`; `btn_in` is the value
returned by `btn_in_read()`.  The diagnostic output of lines 162-170 touches
none of `scale_mode`, `btn_2_cnt` or the framer, scaler and camera registers. -/
def main_loop_body (btn_in : Nat) (s : State) : State :=
  let s :=
    if btn_in &&& 2 = 0 then
      { s with btn_2_cnt := (s.btn_2_cnt + 1) % 65536 }
    else
      let s :=
        if s.btn_2_cnt > 5 ∧ s.btn_2_cnt < 100 then
          { s with hw := boson_mode_write 1 s.hw }
        else s
      { s with btn_2_cnt := 0 }
  if s.btn_2_cnt > 100 ∧ s.btn_2_cnt < 150 then main_toggle s else s

/-- Successive loop iterations, one per sampled value of `btn_in_read()`. -/
def run (btns : List Nat) (s : State) : State :=
  btns.foldl (fun st b => main_loop_body b st) s

/-- Number of `switch_mode` calls so far: each call writes the scaler enable
register exactly once, and nothing else writes it. -/
def mode_switches (s : State) : Nat :=
  (written s.hw.log).count Csr.scaler_enable

/-- Number of `boson_mode_write` calls so far. -/
def boson_signals (s : State) : Nat :=
  (written s.hw.log).count Csr.boson_mode

/-- Every sample of a list reads the monitored button bit (mask 2) as 0. -/
def held (btns : List Nat) : Prop :=
  ∀ b ∈ btns, b &&& 2 = 0

/-- Closed form of the state reached from a state with `btn_2_cnt = 0` after
`n` iterations with the button bit reading 0, valid while the counter has not
wrapped (`n ≤ 64637`). -/
def after_hold (n : Nat) (s : State) : State :=
  if n ≤ 100 then { s with btn_2_cnt := n }
  else { main_toggle { s with btn_2_cnt := 101 } with btn_2_cnt := 898 + n }

/-! ## The text terminal -/

/-- The cursor globals `uint8_t x`, `uint8_t y` and the `uint32_t` cells at
`TERMINAL_BASE`, indexed as the array `vga`. -/
structure Terminal where
  x : Nat
  y : Nat
  vga : Nat → Int

/-- `void terminal_write(char c)`, lines 22-38.  The character is an integer
(the value of the `char`); a store converts it to `uint32_t`. -/
def terminal_write (c : Int) (t : Terminal) : Terminal :=
  if c = 13 then
    { t with x := 0 }
  else if c = 10 then
    { t with y := (t.y + 1) % 256 }
  else
    let t := if t.x ≥ 80 then { t with x := 0, y := (t.y + 1) % 256 } else t
    let t := { t with vga := Function.update t.vga (t.x + t.y * 80) (c % 4294967296) }
    { t with x := (t.x + 1) % 256 }

/-- A blank terminal with the cursor at the origin. -/
def Terminal.blank : Terminal :=
  { x := 0, y := 0, vga := fun _ => 0 }

/-! ## Lemmas on `switch_mode` -/

theorem switch_mode_zero (hw : Hw) :
    switch_mode 0 hw =
      { hw with
        framer_width := 800, framer_height := 600, framer_x_start := 213,
        framer_y_start := 27, scaler_enable := 1,
        log := hw.log ++ [(Csr.framer_x_start, 213), (Csr.framer_y_start, 27),
          (Csr.framer_width, 800), (Csr.framer_height, 600), (Csr.scaler_enable, 1)] } := by
  simp [switch_mode, framer_width_write, framer_height_write, framer_x_start_write,
    framer_y_start_write, scaler_enable_write]

theorem switch_mode_nonzero (mode : Int) (hm : mode ≠ 0) (hw : Hw) :
    switch_mode mode hw =
      { hw with
        framer_width := 640, framer_height := 512, framer_x_start := 293,
        framer_y_start := 71, scaler_enable := 0,
        log := hw.log ++ [(Csr.framer_width, 640), (Csr.framer_height, 512),
          (Csr.framer_x_start, 293), (Csr.framer_y_start, 71), (Csr.scaler_enable, 0)] } := by
  simp [switch_mode, hm, framer_width_write, framer_height_write, framer_x_start_write,
    framer_y_start_write, scaler_enable_write]

theorem switch_mode_log_count_enable (mode : Int) (hw : Hw) :
    (written (switch_mode mode hw).log).count Csr.scaler_enable =
      (written hw.log).count Csr.scaler_enable + 1 := by
  by_cases hm : mode = 0
  · subst hm
    rw [switch_mode_zero]
    simp [written]
  · rw [switch_mode_nonzero mode hm]
    simp [written]

theorem switch_mode_log_count_boson (mode : Int) (hw : Hw) :
    (written (switch_mode mode hw).log).count Csr.boson_mode =
      (written hw.log).count Csr.boson_mode := by
  by_cases hm : mode = 0
  · subst hm
    rw [switch_mode_zero]
    simp [written]
  · rw [switch_mode_nonzero mode hm]
    simp [written]

theorem framer_regs_switch_mode (mode : Int) (hw : Hw) :
    framer_regs (switch_mode mode hw) =
      if mode = 0 then (800, 600, 213, 27, 1) else (640, 512, 293, 71, 0) := by
  by_cases hm : mode = 0
  · subst hm
    simp only [switch_mode_zero, framer_regs, if_true]
  · simp only [switch_mode_nonzero mode hm, framer_regs, hm, if_false]

/-! ## Lemmas on the loop body -/

theorem run_nil (s : State) : run [] s = s := rfl

theorem run_cons (b : Nat) (bs : List Nat) (s : State) :
    run (b :: bs) s = run bs (main_loop_body b s) := rfl

theorem run_append (as bs : List Nat) (s : State) :
    run (as ++ bs) s = run bs (run as s) := by
  simp [run, List.foldl_append]

theorem held_cons {b : Nat} {bs : List Nat} (h : held (b :: bs)) :
    b &&& 2 = 0 ∧ held bs :=
  ⟨h b (List.mem_cons_self b bs), fun a ha => h a (List.mem_cons_of_mem b ha)⟩

theorem held_take {bs : List Nat} (h : held bs) (j : Nat) : held (bs.take j) :=
  fun a ha => h a (List.mem_of_mem_take ha)

theorem held_drop {bs : List Nat} (h : held bs) (j : Nat) : held (bs.drop j) :=
  fun a ha => h a (List.mem_of_mem_drop ha)

theorem held_replicate_zero (n : Nat) : held (List.replicate n 0) := by
  intro b hb
  rw [List.eq_of_mem_replicate hb]
  rfl

/-- An iteration with the button bit reading 0 whose incremented counter lies
outside the band 101..149 only increments the counter. -/
theorem body_held_quiet (b : Nat) (s : State) (hb : b &&& 2 = 0)
    (hc : s.btn_2_cnt + 1 ≤ 100 ∨ (149 ≤ s.btn_2_cnt ∧ s.btn_2_cnt + 1 ≤ 65535)) :
    main_loop_body b s = { s with btn_2_cnt := s.btn_2_cnt + 1 } := by
  have hmod : (s.btn_2_cnt + 1) % 65536 = s.btn_2_cnt + 1 :=
    Nat.mod_eq_of_lt (by omega)
  have hband : ¬ (s.btn_2_cnt + 1 > 100 ∧ s.btn_2_cnt + 1 < 150) := by omega
  simp only [main_loop_body, hb, if_true, hmod, hband, if_false]

/-- An iteration with the button bit reading 0 that takes the counter into the
band 101..149 performs the toggle. -/
theorem body_held_toggle (b : Nat) (s : State) (hb : b &&& 2 = 0)
    (hc : 100 ≤ s.btn_2_cnt ∧ s.btn_2_cnt < 149) :
    main_loop_body b s = main_toggle { s with btn_2_cnt := s.btn_2_cnt + 1 } := by
  have hmod : (s.btn_2_cnt + 1) % 65536 = s.btn_2_cnt + 1 :=
    Nat.mod_eq_of_lt (by omega)
  have hband : s.btn_2_cnt + 1 > 100 ∧ s.btn_2_cnt + 1 < 150 := by omega
  simp only [main_loop_body, hb, if_true, hmod, hband, and_self]

/-- An iteration with the button bit reading 0 at the largest counter value
wraps the counter to 0. -/
theorem body_held_wrap (b : Nat) (s : State) (hb : b &&& 2 = 0)
    (hc : s.btn_2_cnt = 65535) :
    main_loop_body b s = { s with btn_2_cnt := 0 } := by
  simp [main_loop_body, hb, hc]

/-- An iteration with the button bit reading 1. -/
theorem body_released (b : Nat) (s : State) (hb : b &&& 2 ≠ 0) :
    main_loop_body b s =
      { s with
        btn_2_cnt := 0,
        hw := if 5 < s.btn_2_cnt ∧ s.btn_2_cnt < 100 then boson_mode_write 1 s.hw
              else s.hw } := by
  by_cases hc : 5 < s.btn_2_cnt ∧ s.btn_2_cnt < 100
  · simp [main_loop_body, hb, hc]
  · simp [main_loop_body, hb, hc]

/-- Iterations with the button bit reading 0 that stay outside the band
101..149 and below the wrap only add their number to the counter. -/
theorem run_held_quiet (bs : List Nat) (s : State) (hb : held bs)
    (hc : s.btn_2_cnt + bs.length ≤ 100 ∨
      (149 ≤ s.btn_2_cnt ∧ s.btn_2_cnt + bs.length ≤ 65535)) :
    run bs s = { s with btn_2_cnt := s.btn_2_cnt + bs.length } := by
  induction bs generalizing s with
  | nil => simp [run_nil]
  | cons b bs ih =>
    obtain ⟨hb0, hbs⟩ := held_cons hb
    simp only [List.length_cons] at hc
    rw [run_cons, body_held_quiet b s hb0 (by omega), ih _ hbs (by simp only; omega)]
    simp only [List.length_cons]
    congr 1
    omega

/-- The state after `bs.length ≤ 64637` iterations with the button bit reading
0, started with the counter at 0, is the closed form `after_hold`. -/
theorem run_held (bs : List Nat) (s : State) (hb : held bs) (h0 : s.btn_2_cnt = 0)
    (hn : bs.length ≤ 64637) :
    run bs s = after_hold bs.length s := by
  by_cases hle : bs.length ≤ 100
  · rw [run_held_quiet bs s hb (by omega)]
    simp [after_hold, hle, h0]
  · have hsplit : bs = bs.take 100 ++ bs.drop 100 := (List.take_append_drop 100 bs).symm
    have hlen1 : (bs.take 100).length = 100 := by
      rw [List.length_take]; omega
    have hlen2 : (bs.drop 100).length = bs.length - 100 := List.length_drop 100 bs
    obtain ⟨b, rest, hrest⟩ : ∃ b rest, bs.drop 100 = b :: rest := by
      cases hd : bs.drop 100 with
      | nil => rw [hd] at hlen2; simp at hlen2; omega
      | cons b rest => exact ⟨b, rest, rfl⟩
    have hheld2 : held (b :: rest) := hrest ▸ held_drop hb 100
    obtain ⟨hb0, hrestheld⟩ := held_cons hheld2
    have hlen3 : rest.length = bs.length - 101 := by
      rw [hrest] at hlen2
      simp only [List.length_cons] at hlen2
      omega
    have h1 : run (bs.take 100) s = { s with btn_2_cnt := 100 } := by
      rw [run_held_quiet _ s (held_take hb 100) (by omega), hlen1, h0]
    have h2 : main_loop_body b { s with btn_2_cnt := 100 } =
        main_toggle { s with btn_2_cnt := 101 } :=
      body_held_toggle b _ hb0 (by simp)
    have h3 : run rest (main_toggle { s with btn_2_cnt := 101 }) =
        { main_toggle { s with btn_2_cnt := 101 } with btn_2_cnt := 898 + bs.length } := by
      rw [run_held_quiet rest _ hrestheld (by simp only [main_toggle]; omega)]
      simp only [main_toggle, hlen3]
      congr 1
      omega
    have hrun : run bs s = run rest (main_loop_body b (run (bs.take 100) s)) := by
      conv_lhs => rw [hsplit, run_append, hrest, run_cons]
    rw [hrun, h1, h2, h3]
    simp [after_hold, hle]

theorem after_hold_btn_2_cnt (n : Nat) (s : State) :
    (after_hold n s).btn_2_cnt = if n ≤ 100 then n else 898 + n := by
  unfold after_hold
  split <;> rfl

theorem after_hold_scale_mode (n : Nat) (s : State) :
    (after_hold n s).scale_mode =
      if n ≤ 100 then s.scale_mode else (s.scale_mode ^^^ 1) % 256 := by
  unfold after_hold
  split <;> rfl

theorem after_hold_mode_switches (n : Nat) (s : State) :
    mode_switches (after_hold n s) = mode_switches s + if n ≤ 100 then 0 else 1 := by
  unfold after_hold
  split
  · rfl
  · simp only [mode_switches, main_toggle]
    exact switch_mode_log_count_enable _ _

theorem after_hold_boson_signals (n : Nat) (s : State) :
    boson_signals (after_hold n s) = boson_signals s := by
  unfold after_hold
  split
  · rfl
  · simp only [boson_signals, main_toggle]
    exact switch_mode_log_count_boson _ _

/-- Counts after an iteration with the button bit reading 1. -/
theorem released_counts (b : Nat) (s : State) (hb : b &&& 2 ≠ 0) :
    (main_loop_body b s).btn_2_cnt = 0 ∧
    (main_loop_body b s).scale_mode = s.scale_mode ∧
    mode_switches (main_loop_body b s) = mode_switches s ∧
    boson_signals (main_loop_body b s) =
      boson_signals s + if 5 < s.btn_2_cnt ∧ s.btn_2_cnt < 100 then 1 else 0 := by
  rw [body_released b s hb]
  by_cases hc : 5 < s.btn_2_cnt ∧ s.btn_2_cnt < 100
  · simp [hc, mode_switches, boson_signals, boson_mode_write, written]
  · simp [hc, mode_switches, boson_signals]

/-- A list of samples longer than `k` splits at position `k`. -/
theorem held_split (bs : List Nat) (hb : held bs) (k : Nat) (hk : k < bs.length) :
    ∃ b rest, bs = bs.take k ++ b :: rest ∧ b &&& 2 = 0 ∧ held rest ∧
      rest.length = bs.length - (k + 1) ∧ (bs.take k).length = k := by
  have hlen2 : (bs.drop k).length = bs.length - k := List.length_drop k bs
  cases hd : bs.drop k with
  | nil => rw [hd] at hlen2; simp at hlen2; omega
  | cons b rest =>
    have hheld2 : held (b :: rest) := hd ▸ held_drop hb k
    obtain ⟨hb0, hrestheld⟩ := held_cons hheld2
    refine ⟨b, rest, ?_, hb0, hrestheld, ?_, ?_⟩
    · rw [← hd, List.take_append_drop]
    · rw [hd] at hlen2
      simp only [List.length_cons] at hlen2
      omega
    · rw [List.length_take]; omega

/-- Past the wrap of the 16-bit counter: after 64638 iterations with the button
bit reading 0 the counter is 0 again, and the following iterations behave as a
fresh hold. -/
theorem run_held_wrapped (bs : List Nat) (s : State) (hb : held bs) (h0 : s.btn_2_cnt = 0)
    (k : Nat) (hlen : bs.length = 64638 + k) (hk : k ≤ 64637) :
    run bs s = after_hold k { after_hold 64637 s with btn_2_cnt := 0 } := by
  obtain ⟨b, rest, hsplit, hb0, hrest, hrlen, htlen⟩ := held_split bs hb 64637 (by omega)
  have h1 : run (bs.take 64637) s = after_hold 64637 s := by
    rw [run_held _ s (held_take hb _) h0 (by omega), htlen]
  have hc : (after_hold 64637 s).btn_2_cnt = 65535 := by
    rw [after_hold_btn_2_cnt]; decide
  have h2 : main_loop_body b (after_hold 64637 s) =
      { after_hold 64637 s with btn_2_cnt := 0 } := body_held_wrap b _ hb0 hc
  have h3 : run rest { after_hold 64637 s with btn_2_cnt := 0 } =
      after_hold k { after_hold 64637 s with btn_2_cnt := 0 } := by
    have hrk : rest.length = k := by omega
    rw [run_held rest _ hrest rfl (by omega), hrk]
  have hrun : run bs s = run rest (main_loop_body b (run (bs.take 64637) s)) := by
    conv_lhs => rw [hsplit, run_append, run_cons]
  rw [hrun, h1, h2, h3]

theorem wrapped_mode_switches (k : Nat) (s : State) :
    mode_switches (after_hold k { after_hold 64637 s with btn_2_cnt := 0 }) =
      mode_switches s + 1 + if k ≤ 100 then 0 else 1 := by
  rw [after_hold_mode_switches]
  show mode_switches (after_hold 64637 s) + _ = _
  rw [after_hold_mode_switches, if_neg (by omega : ¬ (64637 ≤ 100))]

theorem wrapped_scale_mode (k : Nat) (s : State) :
    (after_hold k { after_hold 64637 s with btn_2_cnt := 0 }).scale_mode =
      if k ≤ 100 then (s.scale_mode ^^^ 1) % 256
      else (((s.scale_mode ^^^ 1) % 256) ^^^ 1) % 256 := by
  rw [after_hold_scale_mode]
  show (if k ≤ 100 then (after_hold 64637 s).scale_mode
    else ((after_hold 64637 s).scale_mode ^^^ 1) % 256) = _
  rw [after_hold_scale_mode, if_neg (by omega : ¬ (64637 ≤ 100))]

/-! ## Display mode switching -/

/-- C1: for every prior register state, `switch_mode` leaves the geometry
registers at width 800, height 600, x_start 213, y_start 27 when `mode == 0`
and at width 640, height 512, x_start 293, y_start 71 otherwise; in both cases
the offsets centre the width x height rectangle in the 800x600 frame whose
origin is (213, 27). -/
theorem switch_mode_geometry (mode : Int) (hw : Hw) :
    ((switch_mode mode hw).framer_width, (switch_mode mode hw).framer_height,
        (switch_mode mode hw).framer_x_start, (switch_mode mode hw).framer_y_start) =
      (if mode = 0 then (800, 600, 213, 27) else (640, 512, 293, 71)) ∧
    213 ≤ (switch_mode mode hw).framer_x_start ∧
    2 * ((switch_mode mode hw).framer_x_start - 213) + (switch_mode mode hw).framer_width
      = 800 ∧
    27 ≤ (switch_mode mode hw).framer_y_start ∧
    2 * ((switch_mode mode hw).framer_y_start - 27) + (switch_mode mode hw).framer_height
      = 600 := by
  by_cases hm : mode = 0
  · subst hm
    rw [switch_mode_zero]
    simp
  · rw [switch_mode_nonzero mode hm]
    simp [hm]

/-- C2, as stated, fails: from reset hardware `switch_mode(0)` leaves the
scaler enable register at 1, not 0, and `switch_mode(1)` leaves it at 0,
not 1. -/
theorem scaler_enable_not_as_claimed :
    (switch_mode 0 Hw.reset).scaler_enable ≠ 0 ∧
    (switch_mode 1 Hw.reset).scaler_enable ≠ 1 := by
  decide

/-- C2, amended: for every prior register state, `switch_mode` leaves the
scaler enable register at 1 when `mode == 0` (the 800x600 configuration) and at
0 when `mode != 0` (the 640x512 configuration). -/
theorem switch_mode_scaler_enable (mode : Int) (hw : Hw) :
    (switch_mode mode hw).scaler_enable = (if mode = 0 then 1 else 0) ∧
    ((switch_mode mode hw).scaler_enable = 1 ↔ (switch_mode mode hw).framer_width = 800) := by
  by_cases hm : mode = 0
  · subst hm
    rw [switch_mode_zero]
    simp
  · rw [switch_mode_nonzero mode hm]
    simp [hm]

/-- C3: from the state `main` establishes before its loop (`scale_mode = 1`,
registers as left by `switch_mode(1)`), two successive toggle events return
`scale_mode` and the five framer/scaler registers to their initial values. -/
theorem toggle_twice_restores (hw : Hw) :
    (main_init hw).scale_mode = 1 ∧
    framer_regs (main_init hw).hw = framer_regs (switch_mode 1 hw) ∧
    (main_toggle (main_toggle (main_init hw))).scale_mode = (main_init hw).scale_mode ∧
    framer_regs (main_toggle (main_toggle (main_init hw))).hw =
      framer_regs (main_init hw).hw ∧
    (main_toggle (main_init hw)).scale_mode ≠ (main_init hw).scale_mode ∧
    framer_regs (main_toggle (main_init hw)).hw = framer_regs (switch_mode 0 hw) := by
  have hx0 : ((1 ^^^ 1 : Nat) % 256) = 0 := by decide
  have hx1 : ((0 ^^^ 1 : Nat) % 256) = 1 := by decide
  simp only [main_init, main_toggle, hx0, hx1, framer_regs_switch_mode]
  simp

/-- C4: for every prior register state and every mode applied in between,
`switch_mode(0); switch_mode(m); switch_mode(0)` leaves the five framer/scaler
registers exactly as a single `switch_mode(0)` does, and the registers after
`switch_mode` depend only on the mode argument. -/
theorem switch_mode_cycle (m : Int) (hw hw2 : Hw) :
    framer_regs (switch_mode 0 (switch_mode m (switch_mode 0 hw))) =
      framer_regs (switch_mode 0 hw) ∧
    framer_regs (switch_mode m hw) = framer_regs (switch_mode m hw2) := by
  constructor
  · simp only [switch_mode_zero, framer_regs]
  · by_cases hm : m = 0
    · subst hm
      simp only [switch_mode_zero, framer_regs]
    · simp only [switch_mode_nonzero m hm, framer_regs]

/-- C8: for both modes the writes of one `switch_mode` call are four geometry
writes, one to each of width, height, x_start and y_start, followed by one
scaler enable write, which is the last write of the call. -/
theorem switch_mode_write_order (mode : Int) (hw : Hw) :
    (switch_mode mode hw).log = hw.log ++ switch_mode_writes mode hw ∧
    ∃ g e, switch_mode_writes mode hw = g ++ [(Csr.scaler_enable, e)] ∧
      (written g).Perm geometry ∧
      Csr.scaler_enable ∉ written g := by
  by_cases hm : mode = 0
  · subst hm
    refine ⟨?_, [(Csr.framer_x_start, 213), (Csr.framer_y_start, 27),
      (Csr.framer_width, 800), (Csr.framer_height, 600)], 1, ?_, ?_, ?_⟩
    · simp [switch_mode_writes, switch_mode_zero]
    · simp [switch_mode_writes, switch_mode_zero]
    · decide
    · decide
  · refine ⟨?_, [(Csr.framer_width, 640), (Csr.framer_height, 512),
      (Csr.framer_x_start, 293), (Csr.framer_y_start, 71)], 0, ?_, ?_, ?_⟩
    · simp [switch_mode_writes, switch_mode_nonzero mode hm]
    · simp [switch_mode_writes, switch_mode_nonzero mode hm]
    · decide
    · decide

/-! ## The button hold counter -/

/-- C5, as stated, fails: holding the button from the state `main` establishes
on reset hardware, it is not the case that none of the first 101 iterations
emits the toggle; the toggle has been emitted once after 101 iterations, and
the 102nd iteration emits none. -/
theorem toggle_not_on_102nd_iteration :
    mode_switches (run (List.replicate 101 0) (main_init Hw.reset)) ≠
      mode_switches (main_init Hw.reset) ∧
    mode_switches (run (List.replicate 101 0) (main_init Hw.reset)) =
      mode_switches (main_init Hw.reset) + 1 ∧
    mode_switches (run (List.replicate 102 0) (main_init Hw.reset)) =
      mode_switches (run (List.replicate 101 0) (main_init Hw.reset)) := by
  have h101 := run_held (List.replicate 101 0) (main_init Hw.reset)
    (held_replicate_zero 101) rfl (by simp)
  have h102 := run_held (List.replicate 102 0) (main_init Hw.reset)
    (held_replicate_zero 102) rfl (by simp)
  rw [h101, h102]
  simp only [List.length_replicate, after_hold_mode_switches]
  decide

/-- C5, amended: starting from `btn_2_cnt = 0`, over 102 consecutive iterations
with the button bit reading 0, the mode toggle (flip of `scale_mode` plus
`switch_mode`) is emitted exactly once, on the 101st iteration: none has been
emitted after any of the first 100 iterations, one after the 101st, and still
one after the 102nd. -/
theorem toggle_on_101st_iteration (bs : List Nat) (s : State) (hb : held bs)
    (hlen : bs.length = 102) (h0 : s.btn_2_cnt = 0) :
    (∀ j, j ≤ 100 → mode_switches (run (bs.take j) s) = mode_switches s ∧
      (run (bs.take j) s).scale_mode = s.scale_mode) ∧
    mode_switches (run (bs.take 101) s) = mode_switches s + 1 ∧
    (run (bs.take 101) s).scale_mode = (s.scale_mode ^^^ 1) % 256 ∧
    mode_switches (run bs s) = mode_switches s + 1 ∧
    (run bs s).scale_mode = (s.scale_mode ^^^ 1) % 256 := by
  have key : ∀ j, j ≤ 102 → run (bs.take j) s = after_hold j s := by
    intro j hj
    have hl : (bs.take j).length = j := by rw [List.length_take]; omega
    rw [run_held _ s (held_take hb j) h0 (by omega), hl]
  refine ⟨?_, ?_, ?_, ?_, ?_⟩
  · intro j hj
    rw [key j (by omega), after_hold_mode_switches, after_hold_scale_mode]
    simp [hj]
  · rw [key 101 (by omega), after_hold_mode_switches]
    simp
  · rw [key 101 (by omega), after_hold_scale_mode]
    rfl
  · rw [run_held bs s hb h0 (by omega), hlen, after_hold_mode_switches]
    simp
  · rw [run_held bs s hb h0 (by omega), hlen, after_hold_scale_mode]
    rfl

/-- Witness of `toggle_on_101st_iteration`: 102 samples reading 0 from the
state `main` establishes on reset hardware. -/
theorem toggle_on_101st_iteration_witness :
    mode_switches (run ((List.replicate 102 0).take 101) (main_init Hw.reset)) =
      mode_switches (main_init Hw.reset) + 1 ∧
    mode_switches (run (List.replicate 102 0) (main_init Hw.reset)) =
      mode_switches (main_init Hw.reset) + 1 :=
  have h := toggle_on_101st_iteration (List.replicate 102 0) (main_init Hw.reset)
    (held_replicate_zero 102) (by simp) rfl
  ⟨h.2.1, h.2.2.2.1⟩

/-- C6: on an iteration with the button bit reading 1, for every prior counter
value `c`, `boson_mode_write(1)` is emitted exactly once if `5 < c < 100` and
not at all otherwise, the counter is 0 afterwards, and no mode toggle is
emitted.  In particular 6 held iterations then a release emit the signal once,
4 held iterations then a release emit nothing, and both end with the counter
at 0. -/
theorem release_iteration (b : Nat) (s : State) (hb : b &&& 2 ≠ 0) :
    (main_loop_body b s).hw.log =
      s.hw.log ++
        (if 5 < s.btn_2_cnt ∧ s.btn_2_cnt < 100 then [(Csr.boson_mode, 1)] else []) ∧
    boson_signals (main_loop_body b s) =
      boson_signals s + (if 5 < s.btn_2_cnt ∧ s.btn_2_cnt < 100 then 1 else 0) ∧
    (main_loop_body b s).btn_2_cnt = 0 ∧
    mode_switches (main_loop_body b s) = mode_switches s ∧
    (main_loop_body b s).scale_mode = s.scale_mode ∧
    (∀ bs s0, held bs → s0.btn_2_cnt = 0 → bs.length = 6 →
      boson_signals (run (bs ++ [b]) s0) = boson_signals s0 + 1 ∧
      mode_switches (run (bs ++ [b]) s0) = mode_switches s0 ∧
      (run (bs ++ [b]) s0).btn_2_cnt = 0) ∧
    (∀ bs s0, held bs → s0.btn_2_cnt = 0 → bs.length = 4 →
      boson_signals (run (bs ++ [b]) s0) = boson_signals s0 ∧
      mode_switches (run (bs ++ [b]) s0) = mode_switches s0 ∧
      (run (bs ++ [b]) s0).btn_2_cnt = 0) := by
  obtain ⟨hcnt, hsm, hms, hbs⟩ := released_counts b s hb
  refine ⟨?_, hbs, hcnt, hms, hsm, ?_, ?_⟩
  · rw [body_released b s hb]
    by_cases hc : 5 < s.btn_2_cnt ∧ s.btn_2_cnt < 100
    · simp [hc, boson_mode_write]
    · simp [hc]
  · intro bs s0 hheld h0 hlen
    obtain ⟨hcnt2, -, hms2, hbs2⟩ := released_counts b (after_hold 6 s0) hb
    have hr : run bs s0 = after_hold 6 s0 := by
      rw [run_held bs s0 hheld h0 (by omega), hlen]
    rw [run_append, run_cons, run_nil, hr]
    rw [hbs2, hms2, after_hold_boson_signals, after_hold_mode_switches,
      after_hold_btn_2_cnt]
    exact ⟨by simp, by simp, hcnt2⟩
  · intro bs s0 hheld h0 hlen
    obtain ⟨hcnt2, -, hms2, hbs2⟩ := released_counts b (after_hold 4 s0) hb
    have hr : run bs s0 = after_hold 4 s0 := by
      rw [run_held bs s0 hheld h0 (by omega), hlen]
    rw [run_append, run_cons, run_nil, hr]
    rw [hbs2, hms2, after_hold_boson_signals, after_hold_mode_switches,
      after_hold_btn_2_cnt]
    exact ⟨by simp, by simp, hcnt2⟩

/-- Witness of `release_iteration`: the sample 2 (button bit reading 1) after
six samples reading 0 from the state `main` establishes on reset hardware. -/
theorem release_iteration_witness :
    boson_signals (run (List.replicate 6 0 ++ [2]) (main_init Hw.reset)) =
      boson_signals (main_init Hw.reset) + 1 ∧
    (run (List.replicate 6 0 ++ [2]) (main_init Hw.reset)).btn_2_cnt = 0 :=
  have h := (release_iteration 2 (main_init Hw.reset) (by decide)).2.2.2.2.2.1
    (List.replicate 6 0) (main_init Hw.reset) (held_replicate_zero 6) rfl (by simp)
  ⟨h.1, h.2.2⟩

/-- C7 fails on the code: holding the button for 64739 iterations from the
state `main` establishes on reset hardware, the 16-bit counter wraps from the
sentinel range back through 101, so that one toggle has been emitted after
64738 iterations and a second one after 64739. -/
theorem toggle_fires_twice_in_one_hold :
    mode_switches (run (List.replicate 64738 0) (main_init Hw.reset)) =
      mode_switches (main_init Hw.reset) + 1 ∧
    mode_switches (run (List.replicate 64739 0) (main_init Hw.reset)) =
      mode_switches (main_init Hw.reset) + 2 ∧
    (run (List.replicate 64739 0) (main_init Hw.reset)).scale_mode =
      (main_init Hw.reset).scale_mode := by
  have h1 := run_held_wrapped (List.replicate 64738 0) (main_init Hw.reset)
    (held_replicate_zero 64738) rfl 100 (by rw [List.length_replicate]) (by omega)
  have h2 := run_held_wrapped (List.replicate 64739 0) (main_init Hw.reset)
    (held_replicate_zero 64739) rfl 101 (by rw [List.length_replicate]) (by omega)
  rw [h1, h2, wrapped_mode_switches, wrapped_mode_switches, wrapped_scale_mode]
  refine ⟨?_, ?_, ?_⟩
  · rw [if_pos (by omega : 100 ≤ 100)]
  · rw [if_neg (by omega : ¬ (101 ≤ 100))]
  · rw [if_neg (by omega : ¬ (101 ≤ 100))]
    decide

/-- C9: for every hold length `n ≤ 64637`, starting from `btn_2_cnt = 0`, `n`
iterations with the button bit reading 0 followed by one iteration with it
reading 1 emit `boson_mode_write(1)` exactly once iff `6 ≤ n ≤ 99`, emit the
mode toggle exactly once iff `n ≥ 101`, on the 101st held iteration, emit
neither when `n ≤ 5` or `n = 100`, never emit both, and end with the counter
at 0. -/
theorem hold_classification (bs : List Nat) (r : Nat) (s : State) (hb : held bs)
    (hr : r &&& 2 ≠ 0) (h0 : s.btn_2_cnt = 0) (hn : bs.length ≤ 64637) :
    boson_signals (run (bs ++ [r]) s) =
      boson_signals s + (if 6 ≤ bs.length ∧ bs.length ≤ 99 then 1 else 0) ∧
    mode_switches (run (bs ++ [r]) s) =
      mode_switches s + (if 101 ≤ bs.length then 1 else 0) ∧
    (∀ j, j ≤ bs.length →
      mode_switches (run (bs.take j) s) = mode_switches s + (if 101 ≤ j then 1 else 0)) ∧
    (bs.length ≤ 5 ∨ bs.length = 100 →
      boson_signals (run (bs ++ [r]) s) = boson_signals s ∧
      mode_switches (run (bs ++ [r]) s) = mode_switches s) ∧
    (boson_signals (run (bs ++ [r]) s) = boson_signals s ∨
      mode_switches (run (bs ++ [r]) s) = mode_switches s) ∧
    (run (bs ++ [r]) s).btn_2_cnt = 0 := by
  obtain ⟨hcnt, -, hms, hbo⟩ := released_counts r (after_hold bs.length s) hr
  have hrun : run (bs ++ [r]) s = main_loop_body r (after_hold bs.length s) := by
    rw [run_append, run_cons, run_nil, run_held bs s hb h0 hn]
  have hB : boson_signals (run (bs ++ [r]) s) =
      boson_signals s + (if 6 ≤ bs.length ∧ bs.length ≤ 99 then 1 else 0) := by
    rw [hrun, hbo, after_hold_boson_signals, after_hold_btn_2_cnt]
    by_cases h100 : bs.length ≤ 100
    · rw [if_pos h100]
      by_cases hmid : 6 ≤ bs.length ∧ bs.length ≤ 99
      · rw [if_pos hmid, if_pos (by omega)]
      · rw [if_neg hmid, if_neg (by omega)]
    · rw [if_neg h100, if_neg (by omega), if_neg (by omega)]
  have hM : mode_switches (run (bs ++ [r]) s) =
      mode_switches s + (if 101 ≤ bs.length then 1 else 0) := by
    rw [hrun, hms, after_hold_mode_switches]
    by_cases h100 : bs.length ≤ 100
    · rw [if_pos h100, if_neg (by omega)]
    · rw [if_neg h100, if_pos (by omega)]
  refine ⟨hB, hM, ?_, ?_, ?_, ?_⟩
  · intro j hj
    have hl : (bs.take j).length = j := by rw [List.length_take]; omega
    rw [run_held _ s (held_take hb j) h0 (by omega), hl, after_hold_mode_switches]
    by_cases h100 : j ≤ 100
    · rw [if_pos h100, if_neg (by omega)]
    · rw [if_neg h100, if_pos (by omega)]
  · intro h
    rw [hB, hM, if_neg (by omega), if_neg (by omega)]
    exact ⟨rfl, rfl⟩
  · rw [hB, hM]
    by_cases h100 : bs.length ≤ 100
    · right
      rw [if_neg (by omega)]
      exact Nat.add_zero _
    · left
      rw [if_neg (by omega)]
      exact Nat.add_zero _
  · rw [hrun]
    exact hcnt

/-- Witness of `hold_classification`: 50 samples reading 0 and then the sample
2, from the state `main` establishes on reset hardware. -/
theorem hold_classification_witness :
    boson_signals (run (List.replicate 50 0 ++ [2]) (main_init Hw.reset)) =
      boson_signals (main_init Hw.reset) +
        (if 6 ≤ (List.replicate 50 0).length ∧ (List.replicate 50 0).length ≤ 99
          then 1 else 0) ∧
    (run (List.replicate 50 0 ++ [2]) (main_init Hw.reset)).btn_2_cnt = 0 :=
  have h := hold_classification (List.replicate 50 0) 2 (main_init Hw.reset)
    (held_replicate_zero 50) (by decide) rfl (by simp)
  ⟨h.1, h.2.2.2.2.2⟩

/-! ## The text terminal -/

/-- C10: for every cursor state and every character other than carriage return
(13) and line feed (10), `terminal_write` stores the character at cell
`col + 80 * row` with `col < 80`, where `col = x`, `row = y` when `x < 80` and
`col = 0`, `row = (y + 1) mod 256` when `x ≥ 80`, and leaves `x = col + 1`, so
`1 ≤ x ≤ 80`; carriage return only sets `x` to 0 and line feed only sets `y`
to `(y + 1) mod 256`, neither storing a cell.  Hence `x ≤ 80` is preserved by
every call. -/
theorem terminal_write_cursor (c : Int) (t : Terminal) :
    (c = 13 → terminal_write c t = { t with x := 0 }) ∧
    (c = 10 → terminal_write c t = { t with y := (t.y + 1) % 256 }) ∧
    (c ≠ 13 → c ≠ 10 →
      (if t.x < 80 then t.x else 0) < 80 ∧
      (terminal_write c t).vga =
        Function.update t.vga
          ((if t.x < 80 then t.x else 0) + 80 * (if t.x < 80 then t.y else (t.y + 1) % 256))
          (c % 4294967296) ∧
      (0 ≤ c → c < 256 →
        (terminal_write c t).vga
          ((if t.x < 80 then t.x else 0) +
            80 * (if t.x < 80 then t.y else (t.y + 1) % 256)) = c) ∧
      (terminal_write c t).x = (if t.x < 80 then t.x else 0) + 1 ∧
      (terminal_write c t).y = (if t.x < 80 then t.y else (t.y + 1) % 256) ∧
      1 ≤ (terminal_write c t).x ∧ (terminal_write c t).x ≤ 80) ∧
    (t.x ≤ 80 → (terminal_write c t).x ≤ 80) := by
  have hother : c ≠ 13 → c ≠ 10 →
      (if t.x < 80 then t.x else 0) < 80 ∧
      (terminal_write c t).vga =
        Function.update t.vga
          ((if t.x < 80 then t.x else 0) + 80 * (if t.x < 80 then t.y else (t.y + 1) % 256))
          (c % 4294967296) ∧
      (terminal_write c t).x = (if t.x < 80 then t.x else 0) + 1 ∧
      (terminal_write c t).y = (if t.x < 80 then t.y else (t.y + 1) % 256) := by
    intro h13 h10
    by_cases hx : t.x < 80
    · have hge : ¬ (t.x ≥ 80) := by omega
      have hm : (t.x + 1) % 256 = t.x + 1 := Nat.mod_eq_of_lt (by omega)
      simp only [terminal_write, h13, h10, if_false, hge, hx, if_true, hm]
      exact ⟨trivial, by rw [Nat.mul_comm], trivial, trivial⟩
    · have hge : t.x ≥ 80 := by omega
      simp only [terminal_write, h13, h10, if_false, hge, hx, if_true]
      exact ⟨by omega, by rw [Nat.mul_comm], trivial, trivial⟩
  refine ⟨?_, ?_, ?_, ?_⟩
  · intro h
    simp [terminal_write, h]
  · intro h
    simp [terminal_write, h]
  · intro h13 h10
    obtain ⟨hcol, hvga, hxx, hyy⟩ := hother h13 h10
    refine ⟨hcol, hvga, ?_, hxx, hyy, ?_, ?_⟩
    · intro hc0 hc1
      rw [hvga, Function.update_same]
      exact Int.emod_eq_of_lt hc0 (by omega)
    · rw [hxx]; omega
    · rw [hxx]; omega
  · intro hle
    by_cases h13 : c = 13
    · simp [terminal_write, h13]
    · by_cases h10 : c = 10
      · simp [terminal_write, h10]
        exact hle
      · obtain ⟨hcol, -, hxx, -⟩ := hother h13 h10
        rw [hxx]; omega

/-- Witness of `terminal_write_cursor`: writing the letter A (65) with the
cursor at the right margin of a blank terminal wraps to column 0 of the next
row. -/
theorem terminal_write_cursor_witness :
    (terminal_write 65 { Terminal.blank with x := 80, y := 3 }).x = 1 ∧
    (terminal_write 65 { Terminal.blank with x := 80, y := 3 }).y = 4 ∧
    (terminal_write 65 { Terminal.blank with x := 80, y := 3 }).vga (0 + 80 * 4) = 65 :=
  have h := (terminal_write_cursor 65 { Terminal.blank with x := 80, y := 3 }).2.2.1
    (by decide) (by decide)
  ⟨h.2.2.2.1, h.2.2.2.2.1, h.2.2.1 (by decide) (by decide)⟩

end DiVA
